import Mathlib

/-!
Verification of the cache/eviction engine of the `browsepy` repository
(`browsepy/cache.py`): the `MemoizeManager` key builder and memoizer, the
`SafeSimpleCache` LRU/TTL store, and the `MultiCache` multi-tier combinator.

Python is embedded shallowly:
* Python objects occurring in the verified claims are modelled by `PyObj`
  (integers, integral floats, strings); Python `==` is `pyEq` (numeric
  equality across `int`/`float`), while dict membership uses the same
  equality.
* Python runtime errors (`TypeError`, `AttributeError`) are modelled by
  `Except PyErr`.  When an operation raises, the exception propagates to the
  caller; the partially mutated state at the moment of the raise is not
  tracked (no claim depends on it).
* The mutable list cells `[prev, next, key, value, expire]` that
  `SafeSimpleCache` links into a circular list are modelled by a heap:
  an association list from addresses (`Nat`) to `Link` records; a slot that
  Python fills with either `None` or a reference to another cell is an
  `Option Nat`.
* Wall-clock time (`time.time()`) is a `time : Int` field of the store
  state: every call of `time_func` during one operation returns it.
-/

/-- Python runtime errors that the embedded code can raise. -/
inductive PyErr where
  | typeError
  | attributeError
deriving DecidableEq, Repr

/-- Python runtime classes of the values occurring in the claims. -/
inductive PyClass where
  | intC
  | floatC
  | strC
deriving DecidableEq, Repr

/-- Python values occurring in the verified claims.  The floats that occur
are integer-valued (`1.0`), so a float is modelled by its integer value under
a distinct constructor (its Python class is `float`, not `int`). -/
inductive PyObj where
  | int (n : Int)
  | float (n : Int)
  | str (s : String)
deriving DecidableEq, Repr

/-- Python `type(x)` / `x.__class__`. -/
def PyObj.cls : PyObj → PyClass
  | .int _ => .intC
  | .float _ => .floatC
  | .str _ => .strC

/-- Python `==` on `PyObj`: numeric values compare equal across `int` and
`float` (`1 == 1.0` is `True`); strings compare by value; values of
numeric and string kinds are never equal. -/
def pyEq : PyObj → PyObj → Bool
  | .int a, .int b => a == b
  | .int a, .float b => a == b
  | .float a, .int b => a == b
  | .float a, .float b => a == b
  | .str a, .str b => a == b
  | _, _ => false

/-- Association-list lookup with Python `==` (`pyEq`) on the keys, the way a
Python dict keyed by `PyObj` resolves lookups. -/
def dlookup {α : Type} : List (PyObj × α) → PyObj → Option α
  | [], _ => none
  | (k, v) :: rest, key => if pyEq k key then some v else dlookup rest key

namespace MemoizeManager

/-- Type of the key produced by `MemoizeManager.make_key` (cache.py lines
69-86): a pair of the type-tagged positional arguments and the name-sorted
type-tagged keyword arguments, wrapped in a `HashTuple`.  The `HashTuple`
wrapper only memoizes `hash`/`repr`, so the key's equality is the structural
tuple equality modelled here. -/
abbrev KeyT : Type := List (PyObj × PyClass) × List (String × PyObj × PyClass)

/-- Equality of two lists under an element-wise Boolean equality, the way
Python `==` compares two tuples. -/
def listEqBy {α : Type} (eq : α → α → Bool) : List α → List α → Bool
  | [], [] => true
  | a :: as_, b :: bs => eq a b && listEqBy eq as_ bs
  | _, _ => false

/-- Python `==` on one type-tagged positional argument `(arg, arg.__class__)`. -/
def argEq (a b : PyObj × PyClass) : Bool :=
  pyEq a.1 b.1 && a.2 == b.2

/-- Python `==` on one type-tagged keyword argument `(key, value, value.__class__)`. -/
def kwargEq (a b : String × PyObj × PyClass) : Bool :=
  a.1 == b.1 && pyEq a.2.1 b.2.1 && a.2.2 == b.2.2

/-- Python `==` on two `make_key` results (tuple equality, component-wise). -/
def keyEq (a b : KeyT) : Bool :=
  listEqBy argEq a.1 b.1 && listEqBy kwargEq a.2 b.2

/-- Python `<` on two lists of characters: lexicographic comparison by code
point. -/
def charsLt : List Char → List Char → Bool
  | [], [] => false
  | [], _ :: _ => true
  | _ :: _, [] => false
  | c :: cs, d :: ds =>
      if c.toNat < d.toNat then true
      else if d.toNat < c.toNat then false
      else charsLt cs ds

/-- Python `<` on two strings: lexicographic comparison of their
characters by code point. -/
def strLt (a b : String) : Bool :=
  charsLt a.data b.data

/-- Insertion into a name-sorted keyword-argument list. -/
def insertSorted (p : String × PyObj) : List (String × PyObj) → List (String × PyObj)
  | [] => [p]
  | q :: rest => if strLt p.1 q.1 then p :: q :: rest else q :: insertSorted p rest

/-- Python `sorted(kwargs.items())` (cache.py line 84): the keyword items
sorted in ascending order.  Dict keys are unique, so the tuple comparison
Python performs is decided by the first component (the argument name). -/
def sortedItems : List (String × PyObj) → List (String × PyObj)
  | [] => []
  | p :: rest => insertSorted p (sortedItems rest)

/-- MemoizeManager.make_key (cache.py lines 69-86): pairs every positional
argument with its runtime class, pairs every keyword argument (sorted by
name) with its name and runtime class, and returns the pair of the two
tuples.  Keyword arguments are given as the dict's items in insertion
order. -/
def make_key (args : List PyObj) (kwargs : List (String × PyObj)) : KeyT :=
  (args.map (fun arg => (arg, arg.cls)),
   (sortedItems kwargs).map (fun kv => (kv.1, kv.2, kv.2.cls)))

/-- Association-list lookup keyed by `keyEq`, the way a Python dict keyed by
`make_key` results resolves lookups. -/
def klookup {α : Type} : List (KeyT × α) → KeyT → Option α
  | [], _ => none
  | (k, v) :: rest, key => if keyEq k key then some v else klookup rest key

/-- State of a `MemoizeManager` (cache.py lines 40-108) whose backing
`_cache` is a plain dict mapping keys to the memoized integer results.  The
counters `_hits` and `_misses` live in the instance attribute namespace
(an association list from attribute names to numbers), because the `misses`
property looks an attribute up by a name that `__init__` never defines. -/
structure State where
  attrs : List (String × Nat)
  cache : List (KeyT × Int)
deriving DecidableEq, Repr

/-- MemoizeManager.__init__ (cache.py lines 48-51): sets `_hits = 0` and
`_misses = 0` (the backing cache starts empty). -/
def init : State := ⟨[("_hits", 0), ("_misses", 0)], []⟩

/-- Python attribute read `getattr(self, name)`: `AttributeError` when the
instance namespace has no such attribute. -/
def getattrN (s : State) (name : String) : Except PyErr Nat :=
  match s.attrs.lookup name with
  | some v => .ok v
  | none => .error .attributeError

/-- Python attribute write `setattr(self, name, v)`. -/
def setattrN (s : State) (name : String) (v : Nat) : State :=
  { s with attrs :=
      if (s.attrs.lookup name).isSome then
        s.attrs.map (fun p => if p.1 == name then (p.1, v) else p)
      else
        s.attrs ++ [(name, v)] }

/-- MemoizeManager.hits property (cache.py lines 53-59): returns
`self._hits`. -/
def hits (s : State) : Except PyErr Nat :=
  getattrN s "_hits"

/-- MemoizeManager.misses property (cache.py lines 61-67): returns
`self._missses` — with the misspelling present in the source.  `__init__`
defines `_misses`, never `_missses`, and no other method defines it either,
so reading this property raises `AttributeError`. -/
def misses (s : State) : Except PyErr Nat :=
  getattrN s "_missses"

/-- MemoizeManager.run (cache.py lines 88-96) specialised to a
zero-argument function: the key is `make_key((), {})`; on a cached result
increment `_hits` and return it without invoking `fnc`; otherwise increment
`_misses`, invoke `fnc`, store the result and return it.  The wrapped
function is a state transformer `fnc : σ → σ × Int` over its closed-over
state (invoking it is one step of that transformer); the returned triple is
(result, manager state, function state). -/
def run {σ : Type} (s : State) (fnc : σ → σ × Int) (st : σ) :
    Except PyErr (Int × State × σ) :=
  let key := make_key [] []
  match klookup s.cache key with
  | some result => do
      let h ← getattrN s "_hits"
      .ok (result, setattrN s "_hits" (h + 1), st)
  | none => do
      let m ← getattrN s "_misses"
      let s₁ := setattrN s "_misses" (m + 1)
      let (st', result) := fnc st
      .ok (result, { s₁ with cache := s₁.cache ++ [(key, result)] }, st')

/-- The zero-argument counting function of the claim (and of
`test_cache.test_cache`): it increments a closed-over counter and returns
its new value, so its return value counts its invocations. -/
def countingFnc (d : Int) : Int × Int := (d + 1, d + 1)

end MemoizeManager

namespace SafeSimpleCache

/-- One of the mutable list cells `[prev, next, key, value, expire]` that
`SafeSimpleCache` links into its circular list (cache.py line 230).  The
`prev`/`next` slots hold either `None` (`none`) or a reference to another
cell (`some` address). -/
structure Link where
  prev : Option Nat
  next : Option Nat
  key : PyObj
  value : PyObj
  expire : Int
deriving DecidableEq, Repr

/-- State of a `SafeSimpleCache` (cache.py lines 111-293).  `heap` gives
every allocated link cell by address; `dict` is `self._cache` (mapping keys
to cell references); `time` is the value `self.time_func()` returns.  The
constructor (lines 148-160) defines `_default_timeout`, `_cache`, `_full`,
`_maxsize`, `_lock` (irrelevant in this sequential embedding) and
`_lru_key`; it defines no attribute named `_older_key`. -/
structure State where
  heap : List (Nat × Link)
  dict : List (PyObj × Nat)
  full : Bool
  maxsize : Nat
  defaultTimeout : Int
  lruKey : Option PyObj
  time : Int
deriving DecidableEq, Repr

/-- SafeSimpleCache.__init__ (cache.py lines 148-160). -/
def State.empty (defaultTimeout : Int) (maxsize : Nat) (time : Int) : State :=
  ⟨[], [], false, maxsize, defaultTimeout, none, time⟩

/-- Dereference a cell address in the heap. -/
def heapGet (s : State) (a : Nat) : Option Link :=
  s.heap.lookup a

/-- Overwrite the cell at an address (Python slot assignment on the
list the address refers to). -/
def heapSet (s : State) (a : Nat) (l : Link) : State :=
  { s with heap := s.heap.map (fun p => if p.1 == a then (a, l) else p) }

/-- Read of `ref[i]` where `ref` is `None` or a cell reference: subscripting
`None` raises `TypeError`; a dangling address never occurs on the states
reached here, and is mapped to `TypeError` for totality. -/
def deref (s : State) (ref : Option Nat) : Except PyErr (Nat × Link) :=
  match ref with
  | none => .error .typeError
  | some a =>
      match heapGet s a with
      | some l => .ok (a, l)
      | none => .error .typeError

/-- SafeSimpleCache._extract (cache.py lines 162-171): unlink the cell at
address `a` from the circular list (`prev[NEXT] = next; next[PREV] = prev`)
and return it.  `prev` and `next` are read from the cell before the two
writes; each write re-reads the current heap, so aliasing (a self-linked
cell) behaves as in Python. -/
def _extract (s : State) (a : Nat) : Except PyErr (Nat × State) := do
  let (_, l) ← deref s a
  let (pa, pl) ← deref s l.prev
  let s₁ := heapSet s pa { pl with next := l.next }
  let (na, nl) ← deref s₁ l.next
  .ok (a, heapSet s₁ na { nl with prev := l.prev })

/-- SafeSimpleCache._insert (cache.py lines 173-183): link the cell at
address `a` in as most-recently-used.  `next` is the cell of
`self._lru_key` when the dict is non-empty (`dict.get` may yield `None`),
and the cell itself when the dict is empty; `prev` is read from
`next[PREV]`; then `link[:2] = (prev, next)` and the two neighbour slots are
written, each write raising `TypeError` when its target is `None`. -/
def _insert (s : State) (a : Nat) : Except PyErr (Nat × State) := do
  let nextRef : Option Nat :=
    if s.dict.isEmpty then some a
    else match s.lruKey with
         | none => none
         | some k => dlookup s.dict k
  let (na, nl) ← deref s nextRef
  let prevRef := nl.prev
  let (_, la) ← deref s (some a)
  let s₁ := heapSet s a { la with prev := prevRef, next := some na }
  let (pa, pl) ← deref s₁ prevRef
  let s₂ := heapSet s₁ pa { pl with next := some a }
  let (na₂, nl₂) ← deref s₂ (some na)
  .ok (a, heapSet s₂ na₂ { nl₂ with prev := some a })

/-- SafeSimpleCache._shift (cache.py lines 185-195): the body's first
expression reads `self._older_key`.  No method of the class ever assigns an
attribute of that name (`__init__` defines `_lru_key`), so every call
raises `AttributeError` immediately, for either value of `pop`. -/
def _shift (_s : State) (_pop : Bool) : Except PyErr (Nat × State) :=
  .error .attributeError

/-- SafeSimpleCache._bump (cache.py lines 197-203): when the cell is the
LRU cell, delegate to `_shift`; when its successor is the LRU cell, return
it unchanged; otherwise extract it and re-insert it as MRU.
`link[NEXT][KEY]` subscripts `link[NEXT]`, raising `TypeError` when that
slot is `None`. -/
def _bump (s : State) (a : Nat) : Except PyErr (Nat × State) := do
  let (_, l) ← deref s (some a)
  if s.lruKey == some l.key then
    _shift s false
  else
    let (_, nl) ← deref s l.next
    if s.lruKey == some nl.key then
      .ok (a, s)
    else do
      let (a₁, s₁) ← _extract s a
      _insert s₁ a₁

/-- SafeSimpleCache._getitem (cache.py lines 205-211) with the default all
public callers pass (`None`, modelled `none`): when the key has a cell and
`link[EXPIRE] < self.time_func()` — the comparison exactly as in the source
— bump the cell and return its value; otherwise return the default. -/
def _getitem (s : State) (key : PyObj) : Except PyErr (Option PyObj × State) :=
  match dlookup s.dict key with
  | some a => do
      let (_, l) ← deref s (some a)
      if l.expire < s.time then do
        let (_, s₁) ← _bump s a
        let (_, l₁) ← deref s₁ (some a)
        .ok (some l₁.value, s₁)
      else
        .ok (none, s)
  | none => .ok (none, s)

/-- SafeSimpleCache._setitem (cache.py lines 213-232): compute the expiry
stamp from the default or per-call timeout; on an existing key bump the
cell and overwrite `value`/`expire`; otherwise, when full, shift the LRU
cell out and reuse it; otherwise allocate a fresh cell `[None, None, key,
value, expire]`, `_insert` it, bind it in the dict, and refresh `_full`
from the dict's new size. -/
def _setitem (s : State) (key value : PyObj) (timeout : Option Int) :
    Except PyErr (PyObj × State) :=
  let expire := s.time + timeout.getD s.defaultTimeout
  match dlookup s.dict key with
  | some a => do
      let (a₁, s₁) ← _bump s a
      let (_, l₁) ← deref s₁ (some a₁)
      .ok (value, heapSet s₁ a₁ { l₁ with value := value, expire := expire })
  | none =>
      if s.full then do
        let (a₁, s₁) ← _shift s true
        let (_, l₁) ← deref s₁ (some a₁)
        let s₂ := heapSet s₁ a₁ { l₁ with key := key, value := value, expire := expire }
        .ok (value, { s₂ with dict := s₂.dict ++ [(key, a₁)] })
      else do
        let a := s.heap.length
        let s₁ := { s with heap := s.heap ++ [(a, ⟨none, none, key, value, expire⟩)] }
        let (a₁, s₂) ← _insert s₁ a
        let s₃ := { s₂ with dict := s₂.dict ++ [(key, a₁)] }
        .ok (value, { s₃ with full := decide (s₃.dict.length ≥ s₃.maxsize) })

/-- Removal of a key from the dict (`dict.pop`); keys are unique, so
filtering removes exactly the bound entry. -/
def dictPop (s : State) (key : PyObj) : State :=
  { s with dict := s.dict.filter (fun p => !pyEq p.1 key) }

/-- SafeSimpleCache._popitem (cache.py lines 234-237) with its default
argument: `self._cache.pop(key, NOT_FOUND)` yields the cell on a bound key
and the `NOT_FOUND` sentinel otherwise; the unconditional
`self._extract(link)[VALUE]` then subscripts the sentinel (a bare
`object()`), raising `TypeError`, whenever the key was absent. -/
def _popitem (s : State) (key : PyObj) : Except PyErr (PyObj × State) :=
  match dlookup s.dict key with
  | none => .error .typeError
  | some a => do
      let s₁ := dictPop s key
      let (a₂, s₂) ← _extract s₁ a
      let (_, l₂) ← deref s₂ (some a₂)
      .ok (l₂.value, s₂)

/-- SafeSimpleCache.add (cache.py lines 239-244): `False` without any other
effect when `key in self._cache`; otherwise `_setitem` then `True`. -/
def add (s : State) (key value : PyObj) (timeout : Option Int) :
    Except PyErr (Bool × State) :=
  if (dlookup s.dict key).isSome then
    .ok (false, s)
  else do
    let (_, s₁) ← _setitem s key value timeout
    .ok (true, s₁)

/-- SafeSimpleCache.set (cache.py lines 246-249). -/
def set (s : State) (key value : PyObj) (timeout : Option Int) :
    Except PyErr (Bool × State) := do
  let (_, s₁) ← _setitem s key value timeout
  .ok (true, s₁)

/-- SafeSimpleCache.inc (cache.py lines 257-259):
`self._setitem(key, self._cache.get(key, 0) + delta)`.  The dict maps keys
to link cells, so on a bound key the read yields the cell (a Python list)
and adding the integer `delta` to it raises `TypeError`; on an absent key
the read yields `0` and `0 + delta` is stored with the default timeout. -/
def inc (s : State) (key : PyObj) (delta : Int) : Except PyErr (PyObj × State) :=
  match dlookup s.dict key with
  | some _ => .error .typeError
  | none => _setitem s key (.int (0 + delta)) none

/-- SafeSimpleCache.dec (cache.py lines 261-262). -/
def dec (s : State) (key : PyObj) (delta : Int) : Except PyErr (PyObj × State) :=
  inc s key (-delta)

/-- SafeSimpleCache.delete (cache.py lines 264-266): `_popitem` either
raises (absent key, see `_popitem`) or returns a stored value, which is
never the `NOT_FOUND` sentinel, so a completed call returns `True`. -/
def delete (s : State) (key : PyObj) : Except PyErr (Bool × State) := do
  let (_, s₁) ← _popitem s key
  .ok (true, s₁)

/-- SafeSimpleCache.get (cache.py lines 272-274): `_getitem` with default
`None`. -/
def get (s : State) (key : PyObj) : Except PyErr (Option PyObj × State) :=
  _getitem s key

end SafeSimpleCache

namespace MultiCache

/-- Modelled from the spec: one backing tier of a `MultiCache` (spec §4.3
"aggregate N independent stores").  The backends handed to
`MultiCache.__init__` are arbitrary werkzeug `BaseCache` instances — an
external dependency, not code under `src/` — so a tier is modelled as a
well-behaved key/value store per the contract the spec gives such backends
(§6 and §4.2): `get` returns the stored value or `None`, `set` stores,
`inc` adds `delta` to the current value (0 when absent), stores the sum and
returns it. -/
abbrev Tier := List (String × Int)

/-- Modelled from the spec: tier `get` — stored value or absent. -/
def tget (t : Tier) (key : String) : Option Int :=
  t.lookup key

/-- Modelled from the spec: tier `set` — bind `key` to `v`. -/
def tset : Tier → String → Int → Tier
  | [], key, v => [(key, v)]
  | p :: rest, key, v =>
      if p.1 == key then (key, v) :: rest else p :: tset rest key v

/-- Modelled from the spec: tier `inc` (spec §4.2) — read the current value
(0 when absent), add `delta`, store and return the sum. -/
def tinc (t : Tier) (key : String) (delta : Int) : Int × Tier :=
  let nv := (t.lookup key).getD 0 + delta
  (nv, tset t key nv)

/-- Modelled from the spec: tier `get_dict` — every requested key mapped to
its stored value or `None` (as `SafeSimpleCache.get_dict`, cache.py lines
276-278, does for its keys). -/
def tgetDict (t : Tier) (keys : List String) : List (String × Option Int) :=
  keys.map (fun k => (k, t.lookup k))

/-- MultiCache.get (cache.py lines 343-348): probe the backends in order
and return the first result that is not `None`; `None` when every backend
missed. -/
def get : List Tier → String → Option Int
  | [], _ => none
  | b :: bs, key =>
      match tget b key with
      | some result => some result
      | none => get bs key

/-- Python `results[max(results, key=results.get)]` (cache.py line 319):
the entry of the results dict with the greatest value; on an empty backend
list Python's `max` raises `ValueError` (modelled by 0, unreachable under
the claims, which concern non-empty tier lists). -/
def maxVal : List Int → Int
  | [] => 0
  | x :: xs => xs.foldl max x

/-- MultiCache._sync (cache.py lines 312-315): walk the results dict
(`results.iteritems()` — Python 2 dict item iteration; the codebase targets
Python 2.7-compatible werkzeug, `werkzeug.contrib.cache`) and issue a
corrective `backend.set(key, value)` to every backend whose own result
differs from the authoritative value. -/
def _sync (results : List (Int × Tier)) (key : String) (value : Int) :
    List Tier :=
  results.map (fun r => if r.1 != value then tset r.2 key value else r.2)

/-- MultiCache.inc (cache.py lines 317-321): apply `inc` to every backend
(the dict keyed by the distinct backend objects is modelled as the
position-indexed list of (local result, backend after its `inc`) pairs),
take the maximal local result as the authoritative value, resynchronise via
`_sync`, and return the value. -/
def inc (backends : List Tier) (key : String) (delta : Int) :
    Int × List Tier :=
  let results := backends.map (fun t => tinc t key delta)
  let value := maxVal (results.map Prod.fst)
  (value, _sync results key value)

/-- Python `result.update(partial)` on the ordered result mapping. -/
def updateRes (res : List (String × Option Int))
    (part : List (String × Option Int)) : List (String × Option Int) :=
  part.foldl
    (fun r kv => r.map (fun p => if p.1 == kv.1 then (p.1, kv.2) else p)) res

/-- Loop body of MultiCache._getmany (cache.py lines 356-362): ask each
backend for the remaining keys, merge its partial answer into the result
mapping, drop the keys it resolved from `remaining`, and — when no key
remains — execute the bare `return`, which yields Python `None` rather
than the result mapping.  Only when keys remain unresolved after the last
backend does the function return the mapping. -/
def getmanyGo (res : List (String × Option Int)) (remaining : List String) :
    List Tier → Option (List (String × Option Int))
  | [] => some res
  | b :: bs =>
      let part := tgetDict b remaining
      let res' := updateRes res part
      let remaining' := remaining.filter (fun k => (b.lookup k).isNone)
      if remaining'.isEmpty then none
      else getmanyGo res' remaining' bs

/-- MultiCache._getmany (cache.py lines 350-362): `remaining = set(keys)`
(deduplicated), the result mapping starts with every requested key bound to
`None` (`OrderedDict` when ordered — modelled as the key-ordered
association list in both cases, which carries the same mapping), then the
backends are drained in order by `getmanyGo`. -/
def _getmany (backends : List Tier) (keys : List String) :
    Option (List (String × Option Int)) :=
  getmanyGo (keys.map (fun k => (k, none))) keys.dedup backends

/-- MultiCache.get_dict (cache.py lines 364-365): returns `_getmany`'s
result unchanged — Python `None` (here `none`) when `_getmany` ended in the
early-stop `return`. -/
def get_dict (backends : List Tier) (keys : List String) :
    Option (List (String × Option Int)) :=
  _getmany backends keys

/-- MultiCache.get_many (cache.py lines 367-368):
`list(self._getmany(keys, ordered=True).values())` — when `_getmany`
returned `None`, the `.values()` attribute access on `None` raises
`AttributeError`. -/
def get_many (backends : List Tier) (keys : List String) :
    Except PyErr (List (Option Int)) :=
  match _getmany backends keys with
  | none => .error .attributeError
  | some res => .ok (res.map Prod.snd)

end MultiCache

/-- A two-entry `SafeSimpleCache` state at `time = 10`: `"k1"` holds `"v1"`
with expiry stamp `20` (not yet reached) and `"k2"` holds `"v2"` with
expiry stamp `5` (already passed); the two cells form the circular list
with `"k1"` as the LRU boundary key.  This is the store an insertion of
`"k1"` then `"k2"` is intended to produce (spec §3); it lets the read path
be examined on live and expired entries. -/
def twoEntryState : SafeSimpleCache.State :=
  ⟨[(0, ⟨some 1, some 1, .str "k1", .str "v1", 20⟩),
    (1, ⟨some 0, some 0, .str "k2", .str "v2", 5⟩)],
   [(.str "k1", 0), (.str "k2", 1)],
   false, 1024, 300, some (.str "k1"), 10⟩

/-- A full `SafeSimpleCache` state with `maxsize = 1` at `time = 10`: the
single key `"a"` holds `1` in a self-linked cell, `_full` is `True` and the
LRU boundary key is `"a"` — the store one successful insertion into a
`maxsize = 1` cache is intended to produce. -/
def fullOneEntryState : SafeSimpleCache.State :=
  ⟨[(0, ⟨some 0, some 0, .str "a", .int 1, 310⟩)],
   [(.str "a", 0)], true, 1, 300, some (.str "a"), 10⟩

/-- The state `SafeSimpleCache.delete` leaves behind when called on
`fullOneEntryState` with key `"a"`: the dict is empty, yet `_full` is still
`True` (no code path of `delete`/`_popitem` touches `_full`). -/
def fullAfterDeleteState : SafeSimpleCache.State :=
  { fullOneEntryState with dict := [] }

/-- C1: the claim states that a `get` finding a key whose `expireAt` has
passed is a miss, a `get` on a not-yet-expired key returns the stored
value, and a key set with `timeout=0` is absent on the very next `get`.
The code does the opposite, and the `timeout=0` scenario cannot even run:
(1) `set` of a first key into a fresh store raises `TypeError` (`_insert`
assigns through the `None` `prev` slot of the fresh cell, cache.py lines
173-183); (2) on a store holding an expired entry `"k2"` (expiry 5, time
10), `get "k2"` returns the stored value; (3) on the not-yet-expired entry
`"k1"` (expiry 20), `get "k1"` is a miss — the expiry comparison
`link[EXPIRE] < self.time_func()` at cache.py line 208 is inverted. -/
theorem safe_cache_expiry_comparison_inverted :
    SafeSimpleCache.set (SafeSimpleCache.State.empty 300 1024 0)
        (.str "k") (.str "v") (some 0) = .error .typeError ∧
    SafeSimpleCache.get twoEntryState (.str "k2")
      = .ok (some (.str "v2"), twoEntryState) ∧
    SafeSimpleCache.get twoEntryState (.str "k1")
      = .ok (none, twoEntryState) :=
  ⟨rfl, rfl, rfl⟩

/-- C2: the claim describes LRU eviction on a `maxsize=2` store via the
scenario `set(0,"a")`, `set(1,"b")`, `set(2,"c")`, `get(0)` absent,
`get(1) == "b"`, `get(2) == "c"`.  The very first step already raises
`TypeError`: with the store empty, `_insert` reads `prev` from the fresh
cell's `None` slot and then executes `prev[NEXT] = link` (cache.py lines
179-181); the eviction path is equally unreachable because `_shift` reads
the never-assigned attribute `self._older_key` (cache.py line 191). -/
theorem safe_cache_first_set_raises :
    SafeSimpleCache.set (SafeSimpleCache.State.empty 300 2 0)
        (.int 0) (.str "a") none = .error .typeError := rfl

/-- C3: the claim states that memoizing a zero-argument counting function
and calling it twice invokes the function once, returns the cached first
result the second time, and leaves both the `hits` and the `misses`
property reading exactly 1.  The first three parts hold (the function
state advances from `d0` to `d0 + 1` once and stays there; both calls
return `d0 + 1`; `hits` reads 1 and the `_misses` field is 1), but the
`misses` property raises `AttributeError`: it returns `self._missses`
(cache.py line 67), an attribute no method ever assigns. -/
theorem memoize_misses_property_raises (d0 : Int) :
    ∃ m1 m2 : MemoizeManager.State,
      MemoizeManager.run MemoizeManager.init MemoizeManager.countingFnc d0
        = .ok (d0 + 1, m1, d0 + 1) ∧
      MemoizeManager.run m1 MemoizeManager.countingFnc (d0 + 1)
        = .ok (d0 + 1, m2, d0 + 1) ∧
      MemoizeManager.hits m2 = .ok 1 ∧
      MemoizeManager.getattrN m2 "_misses" = .ok 1 ∧
      MemoizeManager.misses m2 = .error .attributeError :=
  ⟨⟨[("_hits", 0), ("_misses", 1)], [(MemoizeManager.make_key [] [], d0 + 1)]⟩,
   ⟨[("_hits", 1), ("_misses", 1)], [(MemoizeManager.make_key [] [], d0 + 1)]⟩,
   rfl, rfl, rfl, rfl, rfl⟩

/-- C4: the claim states that `full` is true exactly when the number of
live entries equals `maxsize` — in particular that deleting from a full
store clears the flag.  In the code, inserting the `maxsize`-th key cannot
even complete (a `set` into a fresh `maxsize=1` store raises `TypeError` in
`_insert`), and no code path of `delete`/`_popitem` (cache.py lines
234-237, 264-266) ever touches `_full`: deleting the only entry of a full
`maxsize=1` store succeeds, leaves the dict empty, and still reports
`full = true`. -/
theorem safe_cache_full_flag_survives_delete :
    SafeSimpleCache.set (SafeSimpleCache.State.empty 300 1 0)
        (.str "a") (.int 1) none = .error .typeError ∧
    SafeSimpleCache.delete fullOneEntryState (.str "a")
      = .ok (true, fullAfterDeleteState) ∧
    fullAfterDeleteState.full = true ∧
    fullAfterDeleteState.dict = [] ∧
    fullAfterDeleteState.maxsize = 1 :=
  ⟨rfl, rfl, rfl, rfl, rfl⟩

/-- C5: the claim states that `inc(key, delta)` reads the stored numeric
value (0 when absent), stores and returns the sum — in particular
`inc("x", 1)` on a fresh key returns 1.  The code raises `TypeError` on
every path: on a fresh key it reaches `_setitem`, whose `_insert` assigns
through a `None` slot; on a present key, `self._cache.get(key, 0)` yields
the link cell (a Python list) and `list + int` is a `TypeError`
(cache.py line 259). -/
theorem safe_cache_inc_raises :
    SafeSimpleCache.inc (SafeSimpleCache.State.empty 300 1024 0) (.str "x") 1
      = .error .typeError ∧
    SafeSimpleCache.inc twoEntryState (.str "k1") 1 = .error .typeError :=
  ⟨rfl, rfl⟩

/-- C6: the claim states that `get_dict` returns a mapping and `get_many`
an ordered sequence covering every requested key, also when all keys are
resolved before the last tier.  Whenever all requested keys get resolved,
`_getmany` executes the bare `return` at cache.py line 361, yielding
Python `None`: with one tier holding `"k"`, `get_dict("k")` returns `None`
instead of a mapping, and `get_many("k")` raises `AttributeError` on
`None.values()` (cache.py line 368). -/
theorem multicache_getmany_early_stop_none :
    MultiCache.get_dict [[("k", 5)]] ["k"] = none ∧
    MultiCache.get_many [[("k", 5)]] ["k"] = .error .attributeError :=
  ⟨rfl, rfl⟩

/-- Helper for the multi-tier increment theorem: looking a key up in a tier
just set to `v` under that key yields `v`. -/
theorem lookup_tset (t : MultiCache.Tier) (key : String) (v : Int) :
    List.lookup key (MultiCache.tset t key v) = some v := by
  induction t with
  | nil => simp [MultiCache.tset, List.lookup]
  | cons p rest ih =>
      by_cases h : p.1 = key
      · simp [MultiCache.tset, h, List.lookup]
      · have hf : (key == p.1) = false := beq_eq_false_iff_ne.mpr (Ne.symm h)
        have hf2 : (p.1 == key) = false := beq_eq_false_iff_ne.mpr h
        simp [MultiCache.tset, hf2, List.lookup, hf, ih]

/-- Helper for the multi-tier increment theorem: one `_sync` entry — a tier
that locally computed `r` and was corrected to `value` when `r` differs —
holds `value` under the key either way. -/
theorem lookup_sync_entry (t : MultiCache.Tier) (key : String) (r value : Int) :
    MultiCache.tget
        (if (r != value) then MultiCache.tset (MultiCache.tset t key r) key value
         else MultiCache.tset t key r) key = some value := by
  by_cases h : r = value
  · simp [h, MultiCache.tget, lookup_tset]
  · simp [h, MultiCache.tget, lookup_tset]

/-- C7: for a multi-tier cache whose tier `A` misses key `k` and whose tier
`B` holds `v` there, `get` returns `v` (tiers probed in order, first
present value wins), and a `get` can only report absence when every tier
misses; a subsequent `inc` takes the maximum local result across the tiers
as the authoritative value, returns it, and leaves every tier — the
differing ones having received a corrective `set` — holding exactly that
value under the key. -/
theorem multicache_get_first_hit_inc_resync
    (A B : MultiCache.Tier) (k : String) (v delta : Int)
    (hA : MultiCache.tget A k = none) (hB : MultiCache.tget B k = some v) :
    MultiCache.get [A, B] k = some v ∧
    (MultiCache.inc [A, B] k delta).1 = max delta (v + delta) ∧
    (∀ t ∈ (MultiCache.inc [A, B] k delta).2,
        MultiCache.tget t k = some (max delta (v + delta))) ∧
    (∀ ts : List MultiCache.Tier, MultiCache.get ts k = none →
        ∀ t ∈ ts, MultiCache.tget t k = none) := by
  have hA' : List.lookup k A = none := hA
  have hB' : List.lookup k B = some v := hB
  refine ⟨?_, ?_, ?_, ?_⟩
  · simp [MultiCache.get, MultiCache.tget, hA', hB']
  · simp [MultiCache.inc, MultiCache.tinc, MultiCache.maxVal, hA', hB']
  · intro t ht
    simp only [MultiCache.inc, MultiCache.tinc, MultiCache._sync, List.map_cons,
      List.map_nil, MultiCache.maxVal, List.foldl_cons, List.foldl_nil,
      hA', hB', Option.getD_none, Option.getD_some, zero_add] at ht
    rcases List.mem_pair.mp ht with rfl | rfl
    · exact lookup_sync_entry A k delta (max delta (v + delta))
    · exact lookup_sync_entry B k (v + delta) (max delta (v + delta))
  · intro ts
    induction ts with
    | nil => simp
    | cons b bs ih =>
        intro h t ht
        cases hb : MultiCache.tget b k with
        | some w => simp [MultiCache.get, hb] at h
        | none =>
            rcases List.mem_cons.mp ht with rfl | htl
            · exact hb
            · exact ih (by simpa [MultiCache.get, hb] using h) t htl

/-- Witness for the C7 theorem at the concrete tiers `A = {}`,
`B = {"k": 5}` with `delta = 1`: both hypotheses hold there and the
conclusion follows by the theorem. -/
theorem multicache_get_first_hit_inc_resync_witness :
    MultiCache.tget ([] : MultiCache.Tier) "k" = none ∧
    MultiCache.tget [("k", 5)] "k" = some 5 ∧
    (MultiCache.get [[], [("k", 5)]] "k" = some 5 ∧
     (MultiCache.inc [[], [("k", 5)]] "k" 1).1 = max 1 (5 + 1) ∧
     (∀ t ∈ (MultiCache.inc [[], [("k", 5)]] "k" 1).2,
         MultiCache.tget t "k" = some (max 1 (5 + 1))) ∧
     (∀ ts : List MultiCache.Tier, MultiCache.get ts "k" = none →
         ∀ t ∈ ts, MultiCache.tget t "k" = none)) :=
  ⟨rfl, rfl, multicache_get_first_hit_inc_resync [] [("k", 5)] "k" 5 1 rfl rfl⟩

/-- C8: `make_key((1,), {})` and `make_key((1.0,), {})` are unequal keys
even though `1 == 1.0` in Python, because each argument is paired with its
runtime class; and `make_key((), {"a": 1, "b": 2})` equals
`make_key((), {"b": 2, "a": 1})` because keyword arguments are sorted by
name, so the key is independent of keyword-argument order. -/
theorem make_key_type_tags_and_kwarg_order :
    pyEq (.int 1) (.float 1) = true ∧
    MemoizeManager.keyEq
        (MemoizeManager.make_key [.int 1] [])
        (MemoizeManager.make_key [.float 1] []) = false ∧
    MemoizeManager.keyEq
        (MemoizeManager.make_key [] [("a", .int 1), ("b", .int 2)])
        (MemoizeManager.make_key [] [("b", .int 2), ("a", .int 1)]) = true :=
  ⟨rfl, rfl, rfl⟩

/-- C9: the claim states that on an absent key `get` returns `None` without
raising and `delete` returns `False` without raising.  The `get` half
holds: `_getitem` converts the miss into the caller-supplied `None`
(cache.py lines 205-211, 272-274).  The `delete` half raises instead:
`_popitem` pops the `NOT_FOUND` sentinel as default and unconditionally
subscripts it via `self._extract(link)[VALUE]` (cache.py lines 234-237), a
`TypeError` on the bare `object()` sentinel, so the comparison
`is not NOT_FOUND` in `delete` is never reached for absent keys. -/
theorem safe_cache_get_absent_none_delete_absent_raises :
    SafeSimpleCache.get (SafeSimpleCache.State.empty 300 1024 0) (.str "k")
      = .ok (none, SafeSimpleCache.State.empty 300 1024 0) ∧
    SafeSimpleCache.delete (SafeSimpleCache.State.empty 300 1024 0) (.str "k")
      = .error .typeError :=
  ⟨rfl, rfl⟩

/-- C10: the claim states that `add` on a present key returns `False`
leaving the store entirely unchanged, and on an absent key stores exactly
as `set` would and returns `True`.  The present-key half holds — `add`
returns `False` with the state identical — but the absent-key half raises:
`add` delegates to `_setitem` (cache.py line 243), whose `_insert` assigns
through a `None` slot, so `add` never returns `True` on a fresh store. -/
theorem safe_cache_add_present_frame_absent_raises :
    SafeSimpleCache.add twoEntryState (.str "k1") (.str "z") none
      = .ok (false, twoEntryState) ∧
    SafeSimpleCache.add (SafeSimpleCache.State.empty 300 1024 0)
        (.str "k") (.str "v") none = .error .typeError :=
  ⟨rfl, rfl⟩
